import Mathlib

/-!
# Verification of `border.py` (Bavarescoj/border-for-images)

A shallow embedding of the single source file `src/border.py` of the
repository: a tkinter GUI around one image transformation routine
`add_white_border`, a JSON configuration store
(`save_configuration` / `load_selected_configuration`), and a batch driver
`process_images`.

Modelling conventions:

* Python `int` is `Int`; the exact rational arithmetic of the float
  divisions in `add_white_border` is modelled over `ℚ` (every value
  arising in the claims is exactly representable, and the claims proved
  here do not depend on double rounding).  Python `int(x)` truncation
  toward zero is `pyTrunc`.
* A PIL image is modelled by the data the program observes: pixel
  dimensions, the `format` attribute, the `"dpi"` entry of `info`, and
  the EXIF orientation tag 0x0112 (`none` when the exif record is absent,
  empty, or lacks the tag; the three cases are indistinguishable to the
  program, which applies no rotation in each).  Pixel buffers are outside
  the model: the program only moves them through library calls.
* Pillow's `Image.open` sets the `format` attribute from the file's
  content, but every derived image goes through `Image._new`, which
  copies `mode`, `size` and `info` (hence dpi and exif) and leaves
  `format = None`.  So `Image.open(path).copy()` at line 56 and
  `rotate(·, expand=True)` (which swaps the pixel dimensions for 90°/270°
  and keeps them for 180°) both yield `format = None` while carrying the
  dpi along.
* `Image.resize((w, h))` raises `ValueError` for a negative dimension,
  and `ImageOps.expand` goes through `Image.new`, which raises for a
  negative result size; a raised exception propagates out of
  `add_white_border` (there is no handler), modelled by `Option` with
  `none` for "an exception escaped, nothing was written".
* `bordered_img.save(path, format=..., quality=..., dpi=...)` is modelled
  by a `SavedImage` record of the path, size, quality and dpi the program
  passes, plus the format the file is actually written in: the `format=`
  argument when it is not `None`, otherwise the format Pillow infers from
  the lowercased extension of the written filename (an unknown extension
  raises `ValueError`).
* The Python return value of `add_white_border` is `Option Bool`:
  `some true`/`some false` for `True`/`False`, `none` for `None`
  (the bare `return` on the declined-crop path returns `None`).
* File paths: `os.path.splitext(output_image_path)` yields the pair
  `(base, ext)`; the output path argument is modelled directly as that
  pair, since the program only ever recombines it as
  `base + postfix + ext`.
-/

/- EXIF orientation codes recognised by the program (class `Orientation`
in `border.py`). -/
namespace Orientation

def NORMAL : Int := 1
def CLOCKWISE_90 : Int := 8
def CLOCKWISE_180 : Int := 3
def CLOCKWISE_270 : Int := 6

end Orientation

/-- The observable state of a PIL image: pixel size, `format` attribute,
`info["dpi"]`, and the EXIF orientation tag 0x0112. -/
structure PILImage where
  width : Int
  height : Int
  format : Option String
  dpi : Option (Int × Int)
  exifOrientation : Option Int
deriving DecidableEq, Repr

/-- The corrective rotation selected from the EXIF data. -/
inductive Rot where
  | noRot : Rot
  | deg90 : Rot
  | deg180 : Rot
  | deg270 : Rot
deriving DecidableEq, Repr

/-- The if/elif chain of `add_white_border` lines 63–68: orientation value
8 selects `rotate(90)`, 3 selects `rotate(180)`, 6 selects `rotate(270)`;
any other value, and an absent tag or absent exif record, selects no
rotation. -/
def appliedRot (exifOrientation : Option Int) : Rot :=
  match exifOrientation with
  | none => Rot.noRot
  | some orientation =>
    if orientation = Orientation.CLOCKWISE_90 then Rot.deg90
    else if orientation = Orientation.CLOCKWISE_180 then Rot.deg180
    else if orientation = Orientation.CLOCKWISE_270 then Rot.deg270
    else Rot.noRot

/-- `Image.rotate(d, expand=True)` for d ∈ {90, 180, 270}: 90° and 270°
swap the pixel dimensions, 180° keeps them; the rotated image is built by
`_new`, so `info` (hence dpi) is copied but the `format` attribute is
`None`.  `noRot` is the no-call case: the image is untouched. -/
def applyRot : Rot → PILImage → PILImage
  | Rot.noRot, img => img
  | Rot.deg90, img =>
      { img with width := img.height, height := img.width, format := none }
  | Rot.deg180, img => { img with format := none }
  | Rot.deg270, img =>
      { img with width := img.height, height := img.width, format := none }

/-- `Image.open(input_image_path).copy()` (line 56): the copy is built by
`_new`, which carries `mode`, `size` and `info` (hence dpi and the exif
record) but leaves the `format` attribute `None`. -/
def pilCopy (img : PILImage) : PILImage :=
  { img with format := none }

/-- `img_copy` after the orientation block (lines 58–68). -/
def orientedImage (img : PILImage) : PILImage :=
  applyRot (appliedRot img.exifOrientation) img

/-- Python `int(x)` on a real value: truncation toward zero. -/
def pyTrunc (q : ℚ) : Int :=
  if 0 ≤ q then ⌊q⌋ else -⌊-q⌋

/-- Lines 78–85 of `add_white_border`: the branch on
`original_height > original_width` computing
`(resize_width, resize_height, calculated_border_size)` as exact
rationals.  Arguments in source order: output_width, output_height,
longest_side_border_size, then the oriented image's width and height. -/
def resizeGeometry (output_width output_height longest_side_border_size
    original_width original_height : Int) : ℚ × ℚ × ℚ :=
  if original_height > original_width then
    let resize_height : ℚ := (output_height : ℚ) - (longest_side_border_size : ℚ) * 2
    let resize_width : ℚ := resize_height * (original_width : ℚ) / (original_height : ℚ)
    let calculated_border_size : ℚ := ((output_width : ℚ) - resize_width) / 2
    (resize_width, resize_height, calculated_border_size)
  else
    let resize_width : ℚ := (output_width : ℚ) - (longest_side_border_size : ℚ) * 2
    let resize_height : ℚ := resize_width * (original_height : ℚ) / (original_width : ℚ)
    let calculated_border_size : ℚ := ((output_height : ℚ) - resize_height) / 2
    (resize_width, resize_height, calculated_border_size)

/-- The guard of line 88: the crop-confirmation dialog is shown exactly
when `calculated_border_size < 0`. -/
def cropDialogShown (output_width output_height longest_side_border_size
    original_width original_height : Int) : Bool :=
  decide ((resizeGeometry output_width output_height longest_side_border_size
    original_width original_height).2.2 < 0)

/-- The `border=` pair passed to `ImageOps.expand` (lines 100–105):
`(left_right, top_bottom)`; the fixed thickness goes on the long axis and
`int(calculated_border_size)` on the other. -/
def expandBorders (output_width output_height longest_side_border_size
    original_width original_height : Int) : Int × Int :=
  let calculated_border_size :=
    (resizeGeometry output_width output_height longest_side_border_size
      original_width original_height).2.2
  if original_height > original_width then
    (pyTrunc calculated_border_size, longest_side_border_size)
  else
    (longest_side_border_size, pyTrunc calculated_border_size)

/-- `Image.resize((w, h))`: sets the pixel size; raises (`none`) for a
negative dimension. -/
def pilResize (w h : Int) (img : PILImage) : Option PILImage :=
  if w < 0 ∨ h < 0 then none
  else some { img with width := w, height := h }

/-- `ImageOps.expand(img, border=(lr, tb), fill='white')`: pads `lr`
columns left and right and `tb` rows top and bottom; the underlying
`Image.new` raises (`none`) when a resulting dimension is negative. -/
def imageOpsExpand (lr tb : Int) (img : PILImage) : Option PILImage :=
  let w := img.width + 2 * lr
  let h := img.height + 2 * tb
  if w < 0 ∨ h < 0 then none
  else some { img with width := w, height := h }

/-- `os.path.splitext(output_image_path)` of line 74, as the pair
`(base, ext)`. -/
structure OutPath where
  base : String
  ext : String
deriving DecidableEq, Repr

/-- ASCII lowercasing, as Pillow applies to the extension before the
registry lookup in `Image.save`. -/
def lowerExt (ext : String) : String :=
  String.mk (ext.data.map Char.toLower)

/-- The fragment of Pillow's extension → format registry covering the
file types the program's open dialog admits (line 204:
`*.png;*.jpg;*.jpeg;*.tiff;*.bmp;*.gif`); `none` for an extension
outside it (`Image.save` raises `ValueError` there). -/
def formatFromExtension (ext : String) : Option String :=
  match lowerExt ext with
  | ".jpg" => some "JPEG"
  | ".jpeg" => some "JPEG"
  | ".png" => some "PNG"
  | ".tiff" => some "TIFF"
  | ".tif" => some "TIFF"
  | ".bmp" => some "BMP"
  | ".gif" => some "GIF"
  | _ => none

/-- The format `Image.save` writes: the explicit `format=` argument when
it is not `None`, else the registry entry for the written filename's
extension. -/
def formatForSave (fmtArg : Option String) (ext : String) : Option String :=
  match fmtArg with
  | some f => some f
  | none => formatFromExtension ext

/-- The outcome of the `bordered_img.save(...)` call of line 112: the
path written, the pixel size of the image written, the format the file
is written in (per `formatForSave`), and the `quality=` and `dpi=`
keyword arguments. -/
structure SavedImage where
  path : String
  width : Int
  height : Int
  format : String
  quality : Nat
  dpi : Option (Int × Int)
deriving DecidableEq, Repr

/-- `add_white_border` (lines 53–115).  `cropConfirmed` is the user's
answer should the crop dialog be shown (`false` = the user answers "no").
The result is `none` when a library call raises (nothing written, no
return value); otherwise `some (written, ret)` where `written` is the
`save` call performed (if any) and `ret` the Python return value. -/
def add_white_border (inputImage : PILImage) (output_image_path : OutPath)
    (output_width output_height longest_side_border_size : Int)
    (pfix : String) (cropConfirmed : Bool) :
    Option (Option SavedImage × Option Bool) :=
  let img_copy := orientedImage (pilCopy inputImage)
  let original_width := img_copy.width
  let original_height := img_copy.height
  let new_output_image_path := output_image_path.base ++ pfix ++ output_image_path.ext
  let g := resizeGeometry output_width output_height longest_side_border_size
    original_width original_height
  let resize_width := g.1
  let resize_height := g.2.1
  if cropDialogShown output_width output_height longest_side_border_size
      original_width original_height ∧ cropConfirmed = false then
    -- line 94: bare `return`; `return_value = False` is discarded and
    -- the Python function returns None with no file written
    some (none, none)
  else
    match pilResize (pyTrunc resize_width) (pyTrunc resize_height) img_copy with
    | none => none
    | some resized_img =>
      let b := expandBorders output_width output_height longest_side_border_size
        original_width original_height
      match imageOpsExpand b.1 b.2 resized_img with
      | none => none
      | some bordered_img =>
        match pilResize output_width output_height bordered_img with
        | none => none
        | some final_img =>
          -- line 112: save(new_output_image_path, format=img_copy.format,
          -- quality=100, dpi=img_copy.info.get("dpi")); img_copy.format is
          -- None here (copy/rotate), so the format is inferred from the
          -- written filename's extension
          match formatForSave img_copy.format output_image_path.ext with
          | none => none
          | some written_format =>
            some (some {
              path := new_output_image_path,
              width := final_img.width,
              height := final_img.height,
              format := written_format,
              quality := 100,
              dpi := img_copy.dpi }, some true)

/-! ## Configuration store and GUI fields

`save_configuration` / `load_selected_configuration` /
`process_images` (lines 117–221).  The working directory's `.json`
files are an association list from file name to the stored record (most
recent write first, as a fresh write shadows the old file); JSON
round-trips the four string values verbatim, so the record holds the
strings themselves.  The four tkinter entry widgets are the `Fields`
record of their current text. -/

/-- `last_json_data` (line 24): the name of the implicit
last-used-configuration record. -/
def last_json_data : String := "last_config"

/-- One configuration file's content (lines 131–136): the four values of
the `Entries` enum keys `"output_width"`, `"output_height"`,
`"height_border_size"`, `"postfix"`. -/
structure ConfigData where
  output_width : String
  output_height : String
  height_border_size : String
  pfixValue : String
deriving DecidableEq, Repr

/-- The text of the four entry widgets (`width_entry`, `height_entry`,
`border_size_height_entry`, and the postfix entry). -/
structure Fields where
  width_entry : String
  height_entry : String
  border_size_height_entry : String
  pfix_entry : String
deriving DecidableEq, Repr

/-- The `.json` files of the working directory: file name ↦ content,
most recent write first. -/
def ConfigStore : Type := List (String × ConfigData)

/-- Writing a configuration file (lines 139–140): the new content
shadows any earlier file of the same name. -/
def writeStore (store : ConfigStore) (filename : String) (data : ConfigData) :
    ConfigStore :=
  (filename, data) :: store

/-- Opening a configuration file for reading: `none` is
`FileNotFoundError`. -/
def lookupStore (store : ConfigStore) (filename : String) : Option ConfigData :=
  match store with
  | [] => none
  | (n, d) :: rest => if n = filename then some d else lookupStore rest filename

/-- The `config_data` dict built from the entries (lines 131–136). -/
def configDataOfFields (f : Fields) : ConfigData :=
  { output_width := f.width_entry,
    output_height := f.height_entry,
    height_border_size := f.border_size_height_entry,
    pfixValue := f.pfix_entry }

/-- `save_configuration(entries, source)` (lines 120–146).  When
`fromButton` is true the name comes from the dialog (`none` =
cancelled); otherwise the implicit `last_json_data` name is used.  A
falsy name (cancelled dialog or empty string) shows a warning and writes
nothing. -/
def save_configuration (store : ConfigStore) (f : Fields)
    (dialogName : Option String) (fromButton : Bool) : ConfigStore :=
  let config_name : Option String :=
    if fromButton then dialogName else some last_json_data
  match config_name with
  | none => store
  | some name =>
    if name = "" then store
    else writeStore store (name ++ ".json") (configDataOfFields f)

/-- The `selected_file` computation of lines 160–163: the combobox text
plus `".json"` on a selection event (`some n`), the `last_config` record
on the startup call (`event=None`). -/
def selectedFileName (selectedName : Option String) : String :=
  match selectedName with
  | some name => name ++ ".json"
  | none => last_json_data ++ ".json"

/-- `load_selected_configuration(event)` (lines 157–179).
`selectedName = some n` models a combobox selection event with text `n`;
`none` models the startup call (`event=None`), which reads the
`last_config` record.  A missing file (`FileNotFoundError`) is swallowed
by the `except` clause and the fields keep their previous text. -/
def load_selected_configuration (store : ConfigStore)
    (selectedName : Option String) (f : Fields) : Fields :=
  match lookupStore store (selectedFileName selectedName) with
  | none => f
  | some config =>
    { width_entry := config.output_width,
      height_entry := config.output_height,
      border_size_height_entry := config.height_border_size,
      pfix_entry := config.pfixValue }

/-! ## `process_images` validation and batch loop -/

/-- Digit-string accumulator for `pyIntOfString`. -/
def digitsToNat (acc : Nat) : List Char → Option Nat
  | [] => some acc
  | c :: cs => if c.isDigit then digitsToNat (acc * 10 + (c.toNat - 48)) cs else none

/-- A non-empty all-digit run, else `none`. -/
def parseDigits : List Char → Option Nat
  | [] => none
  | cs => digitsToNat 0 cs

/-- Leading and trailing whitespace removed. -/
def stripChars (s : List Char) : List Char :=
  ((s.dropWhile Char.isWhitespace).reverse.dropWhile Char.isWhitespace).reverse

/-- The Python built-in `int(str)` applied to an entry's text (lines
186–188): optional surrounding whitespace, an optional sign, then a
non-empty digit run; anything else raises `ValueError` (`none`).
(Python additionally accepts underscore digit separators, non-ASCII
decimal digits and some exotic whitespace; those corner cases are
outside the model.) -/
def pyIntOfString (s : String) : Option Int :=
  match stripChars s.data with
  | '-' :: rest => (parseDigits rest).map (fun n => -(n : Int))
  | '+' :: rest => (parseDigits rest).map (fun n => (n : Int))
  | cs => (parseDigits cs).map (fun n => (n : Int))

/-- The `try` block of `process_images` (lines 185–199): the three
`int(...)` conversions in source order, then the non-empty check on the
postfix.  `none` means an error dialog was shown and the function
returned before `save_configuration`. -/
def process_images_validate (f : Fields) :
    Option (Int × Int × Int × String) :=
  match pyIntOfString f.width_entry with
  | none => none
  | some output_width =>
    match pyIntOfString f.height_entry with
    | none => none
    | some output_height =>
      match pyIntOfString f.border_size_height_entry with
      | none => none
      | some height_border_size =>
        if f.pfix_entry = "" then none
        else some (output_width, output_height, height_border_size, f.pfix_entry)

/-- The head of `process_images` (lines 184–201): on validation failure
the store is untouched and no parameters are produced; on success the
entries are saved under the implicit `last_config` name and the batch
proceeds with the parsed parameters. -/
def process_images_start (store : ConfigStore) (f : Fields) :
    ConfigStore × Option (Int × Int × Int × String) :=
  match process_images_validate f with
  | none => (store, none)
  | some p => (save_configuration store f none false, some p)

/-- One entry of the selected input-file list: the image behind the
path, the output path already combined by lines 215–216, and the user's
answer should this file's crop dialog appear. -/
structure BatchItem where
  image : PILImage
  outPath : OutPath
  cropConfirmed : Bool
deriving DecidableEq

/-- The per-file loop of `process_images` (lines 214–217): each file is
handed to `add_white_border` in turn and the return value is ignored; an
exception escaping `add_white_border` aborts the whole batch (`none`),
while a declined crop merely writes nothing for that file.  The result
collects the `save` calls performed, in order. -/
def process_images_batch (items : List BatchItem)
    (output_width output_height height_border_size : Int) (pfix : String) :
    Option (List SavedImage) :=
  match items with
  | [] => some []
  | item :: rest =>
    match add_white_border item.image item.outPath output_width output_height
      height_border_size pfix item.cropConfirmed with
    | none => none
    | some (written, _) =>
      match process_images_batch rest output_width output_height
        height_border_size pfix with
      | none => none
      | some outs =>
        some (match written with
          | some s => s :: outs
          | none => outs)

/-! ## Helper lemmas -/

/-- Truncation of an integer value is the integer itself. -/
theorem pyTrunc_intCast (n : Int) : pyTrunc (n : ℚ) = n := by
  unfold pyTrunc
  split
  · simp
  · rw [← Int.cast_neg, Int.floor_intCast, neg_neg]

/-- `img_copy` reaches the `save` call with `format = None`: the copy
has no `format` attribute and a rotation cannot restore one. -/
theorem orientedImage_pilCopy_format (img : PILImage) :
    (orientedImage (pilCopy img)).format = none := by
  unfold orientedImage pilCopy
  cases appliedRot { img with format := none }.exifOrientation <;>
    simp [applyRot]

/-- Neither the copy nor the orientation correction touches the pixel
dimensions beyond the 90°/270° swap: the copy's oriented size equals the
source's oriented size. -/
theorem orientedImage_pilCopy_dims (img : PILImage) :
    (orientedImage (pilCopy img)).width = (orientedImage img).width ∧
    (orientedImage (pilCopy img)).height = (orientedImage img).height := by
  unfold orientedImage pilCopy
  have he : ({ img with format := none } : PILImage).exifOrientation =
      img.exifOrientation := rfl
  rw [he]
  cases appliedRot img.exifOrientation <;> exact ⟨rfl, rfl⟩

/-- Orientation correction never touches the dpi metadata. -/
theorem orientedImage_dpi (img : PILImage) :
    (orientedImage img).dpi = img.dpi := by
  unfold orientedImage applyRot
  cases appliedRot img.exifOrientation <;> rfl

/-- A successful `Image.resize` yields exactly the requested pixel size. -/
theorem pilResize_eq_some (w h : Int) (img img' : PILImage)
    (hr : pilResize w h img = some img') :
    img' = { img with width := w, height := h } := by
  unfold pilResize at hr
  split at hr
  · exact absurd hr (by simp)
  · injection hr with hr
    exact hr.symm

/-- Case analysis on a completed run of `add_white_border`: either the
crop dialog appeared and was declined (nothing written, `None`
returned), or a file was written with the target size, the postfixed
path, maximum quality and the source's dpi, in the format inferred from
the output extension (the `format=` argument being `None`), and `True`
was returned. -/
theorem add_white_border_inv
    (img : PILImage) (p : OutPath) (ow oh b : Int) (pfx : String) (ans : Bool)
    (w : Option SavedImage) (r : Option Bool)
    (h : add_white_border img p ow oh b pfx ans = some (w, r)) :
    (w = none ∧ r = none ∧
      cropDialogShown ow oh b (orientedImage img).width
        (orientedImage img).height = true ∧ ans = false) ∨
    ∃ out : SavedImage, w = some out ∧ r = some true ∧
      out.path = p.base ++ pfx ++ p.ext ∧
      out.width = ow ∧ out.height = oh ∧
      formatFromExtension p.ext = some out.format ∧
      out.quality = 100 ∧
      out.dpi = img.dpi := by
  simp only [add_white_border] at h
  split at h
  · next hc =>
      left
      injection h with h
      injection h with hw hr
      have hc1 := hc.1
      rw [(orientedImage_pilCopy_dims img).1,
        (orientedImage_pilCopy_dims img).2] at hc1
      exact ⟨hw.symm, hr.symm, hc1, hc.2⟩
  · split at h
    · exact absurd h (by simp)
    · split at h
      · exact absurd h (by simp)
      · split at h
        · exact absurd h (by simp)
        · next final_img hfinal =>
            split at h
            · exact absurd h (by simp)
            · next written_format hfmt =>
                right
                injection h with h
                injection h with hw hr
                have hf := pilResize_eq_some _ _ _ _ hfinal
                subst hf
                rw [orientedImage_pilCopy_format] at hfmt
                simp only [formatForSave] at hfmt
                refine ⟨_, hw.symm, hr.symm, rfl, rfl, rfl, hfmt, rfl, ?_⟩
                show (orientedImage (pilCopy img)).dpi = img.dpi
                rw [orientedImage_dpi]
                rfl

/-! ## Claim theorems -/

/-- C1: for every input accepted by `add_white_border` whose processing
is not aborted at the crop confirmation (i.e. every run that actually
performs a `save`), the written output image's pixel dimensions equal
exactly (target width, target height), regardless of the rounding in the
intermediate resize and border computations. -/
theorem written_output_has_target_size
    (img : PILImage) (p : OutPath) (ow oh b : Int) (pfx : String) (ans : Bool)
    (out : SavedImage) (r : Option Bool)
    (h : add_white_border img p ow oh b pfx ans = some (some out, r)) :
    out.width = ow ∧ out.height = oh := by
  rcases add_white_border_inv img p ow oh b pfx ans _ _ h with
    ⟨hw, -, -, -⟩ | ⟨o, hw, -, -, hW, hH, -, -, -⟩
  · exact absurd hw (by simp)
  · injection hw with hw
    subst hw
    exact ⟨hW, hH⟩

/-- Witness for C1 at a concrete run: a 2×2 source, target 10×12,
border 1. -/
theorem written_output_has_target_size_witness :
    ({ path := "img_b.png", width := 10, height := 12, format := "PNG",
       quality := 100, dpi := none } : SavedImage).width = 10 ∧
    ({ path := "img_b.png", width := 10, height := 12, format := "PNG",
       quality := 100, dpi := none } : SavedImage).height = 12 :=
  written_output_has_target_size
    { width := 2, height := 2, format := none, dpi := none, exifOrientation := none }
    { base := "img", ext := ".png" } 10 12 1 "_b" true
    { path := "img_b.png", width := 10, height := 12, format := "PNG",
      quality := 100, dpi := none } (some true)
    (by norm_num [add_white_border, orientedImage, pilCopy, appliedRot,
      applyRot, resizeGeometry, cropDialogShown, expandBorders, pilResize,
      imageOpsExpand, pyTrunc, formatForSave, formatFromExtension, lowerExt]; rfl)

/-- C2: the spec's portrait scenario.  Source 1000×2000, target canvas
800×1600, longest-side border 40: inner resize height 1600 − 80 = 1520,
inner resize width 1520·1000/2000 = 760, derived left/right border
(800 − 760)/2 = 20, and the written output is exactly 800×1600. -/
theorem portrait_scenario_exact :
    resizeGeometry 800 1600 40 1000 2000 = (760, 1520, 20) ∧
    expandBorders 800 1600 40 1000 2000 = (20, 40) ∧
    add_white_border
      { width := 1000, height := 2000, format := some "JPEG",
        dpi := some (300, 300), exifOrientation := none }
      { base := "out/photo", ext := ".jpg" } 800 1600 40 "_b" true =
    some (some {
      path := "out/photo_b.jpg", width := 800, height := 1600,
      format := "JPEG", quality := 100, dpi := some (300, 300) },
      some true) := by
  refine ⟨by norm_num [resizeGeometry],
    by norm_num [expandBorders, resizeGeometry, pyTrunc], ?_⟩
  norm_num [add_white_border, orientedImage, pilCopy, appliedRot, applyRot,
    resizeGeometry, cropDialogShown, expandBorders, pilResize,
    imageOpsExpand, pyTrunc, formatForSave, formatFromExtension, lowerExt]
  rfl

/-- C6 counterexample: the written format is not carried over from the
source's `format` attribute.  A source whose content is PNG
(`format = "PNG"` after `Image.open`) but whose file name ends in
`.jpg` is written as JPEG: `Image.open(...).copy()` at line 56 drops the
`format` attribute, so the `save` call at line 112 receives
`format=None` and infers JPEG from the output extension. -/
theorem format_not_carried_from_source :
    add_white_border
      { width := 2, height := 2, format := some "PNG", dpi := none,
        exifOrientation := none }
      { base := "f", ext := ".jpg" } 10 12 1 "_b" true =
    some (some { path := "f_b.jpg", width := 10, height := 12,
                 format := "JPEG", quality := 100, dpi := none }, some true) ∧
    ("JPEG" : String) ≠ "PNG" := by
  constructor
  · norm_num [add_white_border, orientedImage, pilCopy, appliedRot, applyRot,
      resizeGeometry, cropDialogShown, expandBorders, pilResize,
      imageOpsExpand, pyTrunc, formatForSave, formatFromExtension, lowerExt]
    rfl
  · decide

/-- C6 as amended: every written file goes to the output path with the
postfix inserted between stem and extension, at `quality=100`, carrying
over the source's dpi metadata — the EXIF orientation (hence any applied
rotation) being arbitrary, since `_new` copies `info`.  The format,
however, is not carried from the source's `format` attribute: the copy
(and any rotation) leaves that attribute `None`, so the `save` call
receives `format=None` and the written format is the one Pillow infers
from the output file's extension. -/
theorem saved_file_metadata
    (img : PILImage) (p : OutPath) (ow oh b : Int) (pfx : String) (ans : Bool)
    (out : SavedImage) (r : Option Bool)
    (h : add_white_border img p ow oh b pfx ans = some (some out, r)) :
    out.path = p.base ++ pfx ++ p.ext ∧
    (orientedImage (pilCopy img)).format = none ∧
    formatFromExtension p.ext = some out.format ∧
    out.quality = 100 ∧
    out.dpi = img.dpi := by
  rcases add_white_border_inv img p ow oh b pfx ans _ _ h with
    ⟨hw, -, -, -⟩ | ⟨o, hw, -, hpath, -, -, hfmt, hq, hdpi⟩
  · exact absurd hw (by simp)
  · injection hw with hw
    subst hw
    exact ⟨hpath, orientedImage_pilCopy_format img, hfmt, hq, hdpi⟩

/-- Witness for C6's amended claim at a concrete run with an
orientation-correcting rotation: a 2000×1000 source carrying EXIF
orientation 8 (rotated to 1000×2000), JPEG content, 300 dpi, written
under `.jpg`. -/
theorem saved_file_metadata_witness :
    ({ path := "out/photo_b.jpg", width := 800, height := 1600,
       format := "JPEG", quality := 100,
       dpi := some (300, 300) } : SavedImage).path = "out/photo" ++ "_b" ++ ".jpg" ∧
    (orientedImage (pilCopy
      { width := 2000, height := 1000, format := some "JPEG",
        dpi := some (300, 300), exifOrientation := some 8 })).format = none ∧
    formatFromExtension ".jpg" =
      some ({ path := "out/photo_b.jpg", width := 800, height := 1600,
              format := "JPEG", quality := 100,
              dpi := some (300, 300) } : SavedImage).format ∧
    ({ path := "out/photo_b.jpg", width := 800, height := 1600,
       format := "JPEG", quality := 100,
       dpi := some (300, 300) } : SavedImage).quality = 100 ∧
    ({ path := "out/photo_b.jpg", width := 800, height := 1600,
       format := "JPEG", quality := 100,
       dpi := some (300, 300) } : SavedImage).dpi = some (300, 300) :=
  saved_file_metadata
    { width := 2000, height := 1000, format := some "JPEG",
      dpi := some (300, 300), exifOrientation := some 8 }
    { base := "out/photo", ext := ".jpg" } 800 1600 40 "_b" true
    { path := "out/photo_b.jpg", width := 800, height := 1600,
      format := "JPEG", quality := 100, dpi := some (300, 300) } (some true)
    (by norm_num [add_white_border, orientedImage, pilCopy, appliedRot,
      applyRot, Orientation.CLOCKWISE_90, Orientation.CLOCKWISE_180,
      Orientation.CLOCKWISE_270, resizeGeometry, cropDialogShown,
      expandBorders, pilResize, imageOpsExpand, pyTrunc, formatForSave,
      formatFromExtension, lowerExt]; rfl)

/-- C7: a corrective rotation of 90°, 180°, or 270° is selected exactly
when the EXIF orientation value is 8, 3, or 6 respectively; any other
value, and absent metadata, select no rotation.  (`appliedRot` is the
rotation `orientedImage`, hence `add_white_border`, applies.) -/
theorem orientation_rotation_selection :
    appliedRot (some 8) = Rot.deg90 ∧
    appliedRot (some 3) = Rot.deg180 ∧
    appliedRot (some 6) = Rot.deg270 ∧
    appliedRot none = Rot.noRot ∧
    ∀ v : Int, v ≠ 8 → v ≠ 3 → v ≠ 6 → appliedRot (some v) = Rot.noRot := by
  refine ⟨rfl, rfl, rfl, rfl, ?_⟩
  intro v h8 h3 h6
  simp [appliedRot, Orientation.CLOCKWISE_90, Orientation.CLOCKWISE_180,
    Orientation.CLOCKWISE_270, h8, h3, h6]

/-- Witness for C7's universally quantified part at the unrecognized
mirror-orientation value 2. -/
theorem orientation_rotation_selection_witness :
    appliedRot (some 2) = Rot.noRot :=
  orientation_rotation_selection.2.2.2.2 2 (by decide) (by decide) (by decide)

/-- C10: declining the crop confirmation makes `add_white_border` return
Python `None` (the bare `return` discards the `return_value = False`
assignment) with no file written; a completed run returns `True`; the
value `False` is never returned, so a caller can only distinguish the
declined-crop case from `False` by identity, not by falsiness. -/
theorem declined_crop_returns_python_none
    (img : PILImage) (p : OutPath) (ow oh b : Int) (pfx : String) (ans : Bool) :
    (cropDialogShown ow oh b (orientedImage img).width
        (orientedImage img).height = true →
      add_white_border img p ow oh b pfx false = some (none, none)) ∧
    (∀ out r, add_white_border img p ow oh b pfx ans = some (some out, r) →
      r = some true) ∧
    (∀ w r, add_white_border img p ow oh b pfx ans = some (w, r) →
      r ≠ some false) := by
  refine ⟨fun hc => ?_, fun out r h => ?_, fun w r h => ?_⟩
  · have hc' : cropDialogShown ow oh b (orientedImage (pilCopy img)).width
        (orientedImage (pilCopy img)).height = true := by
      rw [(orientedImage_pilCopy_dims img).1, (orientedImage_pilCopy_dims img).2]
      exact hc
    simp [add_white_border, hc']
  · rcases add_white_border_inv img p ow oh b pfx ans _ _ h with
      ⟨hw, -, -, -⟩ | ⟨o, -, hr, -, -, -, -, -, -⟩
    · exact absurd hw (by simp)
    · exact hr
  · rcases add_white_border_inv img p ow oh b pfx ans _ _ h with
      ⟨-, hr, -, -⟩ | ⟨o, -, hr, -, -, -, -, -, -⟩
    · rw [hr]; exact fun hco => by cases hco
    · rw [hr]; exact fun hco => by cases hco

/-- Witness for C10 at a concrete declined crop: a square 100×100 source
with target 100×10 and border 0 derives a negative border, and the
declined run returns `None` with nothing written. -/
theorem declined_crop_returns_python_none_witness :
    add_white_border
      { width := 100, height := 100, format := none, dpi := none,
        exifOrientation := none }
      { base := "x", ext := ".png" } 100 10 0 "_b" false = some (none, none) :=
  (declined_crop_returns_python_none
    { width := 100, height := 100, format := none, dpi := none,
      exifOrientation := none }
    { base := "x", ext := ".png" } 100 10 0 "_b" false).1
    (by norm_num [cropDialogShown, resizeGeometry, orientedImage,
      appliedRot, applyRot])

/-- C3: for a square source (width = height) and a square target canvas,
the derived border equals the configured longest-side border size
exactly, the `border=` pair passed to `ImageOps.expand` is that size on
both axes, and the crop-confirmation dialog is not shown. -/
theorem square_source_square_target_border
    (w ow b : Int) (hw : 0 < w) (hb : 0 ≤ b) (_hinner : 0 ≤ ow - b * 2) :
    (resizeGeometry ow ow b w w).2.2 = (b : ℚ) ∧
    expandBorders ow ow b w w = (b, b) ∧
    cropDialogShown ow ow b w w = false := by
  have hw' : (w : ℚ) ≠ 0 := Int.cast_ne_zero.mpr (by omega)
  have hgeom : (resizeGeometry ow ow b w w).2.2 = (b : ℚ) := by
    simp only [resizeGeometry, gt_iff_lt, lt_irrefl, if_false]
    field_simp
  refine ⟨hgeom, ?_, ?_⟩
  · have hpair : expandBorders ow ow b w w =
        (b, pyTrunc ((resizeGeometry ow ow b w w).2.2)) := by
      simp only [expandBorders, gt_iff_lt, lt_irrefl, if_false]
    rw [hpair, hgeom, pyTrunc_intCast]
  · have hnn : ¬((resizeGeometry ow ow b w w).2.2 < 0) := by
      rw [hgeom]
      exact not_lt.mpr (by exact_mod_cast hb)
    simp [cropDialogShown, hnn]

/-- Witness for C3: a 10×10 source, a 100×100 target, border 7. -/
theorem square_source_square_target_border_witness :
    (resizeGeometry 100 100 7 10 10).2.2 = (7 : ℚ) ∧
    expandBorders 100 100 7 10 10 = (7, 7) ∧
    cropDialogShown 100 100 7 10 10 = false :=
  square_source_square_target_border 10 100 7 (by decide) (by decide) (by decide)

/-- C4: when the derived border is negative (the crop dialog appears)
and the user declines, `add_white_border` writes nothing for that file
and returns, and the batch result is exactly that of the remaining
files. -/
theorem declined_crop_preserves_batch
    (item : BatchItem) (rest : List BatchItem) (ow oh b : Int) (pfx : String)
    (hneed : cropDialogShown ow oh b (orientedImage item.image).width
      (orientedImage item.image).height = true)
    (hans : item.cropConfirmed = false) :
    add_white_border item.image item.outPath ow oh b pfx item.cropConfirmed
      = some (none, none) ∧
    process_images_batch (item :: rest) ow oh b pfx
      = process_images_batch rest ow oh b pfx := by
  have hneed' : cropDialogShown ow oh b
      (orientedImage (pilCopy item.image)).width
      (orientedImage (pilCopy item.image)).height = true := by
    rw [(orientedImage_pilCopy_dims item.image).1,
      (orientedImage_pilCopy_dims item.image).2]
    exact hneed
  have h1 : add_white_border item.image item.outPath ow oh b pfx
      item.cropConfirmed = some (none, none) := by
    rw [hans]
    simp [add_white_border, hneed']
  refine ⟨h1, ?_⟩
  conv_lhs => rw [process_images_batch]
  rw [h1]
  cases hres : process_images_batch rest ow oh b pfx <;> simp [hres]

/-- Witness for C4: the declined 100×100 source with target 100×10 and
border 0 contributes nothing and leaves the (empty) remainder of the
batch as is. -/
theorem declined_crop_preserves_batch_witness :
    add_white_border
      { width := 100, height := 100, format := none, dpi := none,
        exifOrientation := none }
      { base := "y", ext := ".png" } 100 10 0 "_b" false = some (none, none) ∧
    process_images_batch
      [⟨{ width := 100, height := 100, format := none, dpi := none,
          exifOrientation := none }, { base := "y", ext := ".png" }, false⟩]
      100 10 0 "_b"
      = process_images_batch [] 100 10 0 "_b" :=
  declined_crop_preserves_batch
    ⟨{ width := 100, height := 100, format := none, dpi := none,
        exifOrientation := none }, { base := "y", ext := ".png" }, false⟩
    [] 100 10 0 "_b"
    (by norm_num [cropDialogShown, resizeGeometry, orientedImage,
      appliedRot, applyRot])
    rfl

/-- C5 counterexample: the claim says the width and height must be
positive and the border non-negative, but `process_images` only runs the
three `int(...)` conversions and the non-empty-postfix check: the entry
texts ("-3", "5", "1", "x") pass validation and start the batch with a
negative target width. -/
theorem validation_accepts_negative_width :
    process_images_validate
      { width_entry := "-3", height_entry := "5",
        border_size_height_entry := "1", pfix_entry := "x" }
      = some (-3, 5, 1, "x") ∧
    ¬(0 < (-3 : Int)) := by
  exact ⟨rfl, by decide⟩

/-- C5 as amended: validation only requires the three numeric fields to
parse as (possibly negative) integers and the postfix to be non-empty;
when it fails, `process_images` stops before `save_configuration`, so
the configuration store is untouched and no batch is started. -/
theorem validation_is_parse_and_nonempty_only
    (store : ConfigStore) (f : Fields) :
    (process_images_validate f = none ↔
      pyIntOfString f.width_entry = none ∨
      pyIntOfString f.height_entry = none ∨
      pyIntOfString f.border_size_height_entry = none ∨
      f.pfix_entry = "") ∧
    (process_images_validate f = none →
      process_images_start store f = (store, none)) := by
  constructor
  · cases hw : pyIntOfString f.width_entry <;>
      cases hh : pyIntOfString f.height_entry <;>
      cases hb : pyIntOfString f.border_size_height_entry <;>
      by_cases hp : f.pfix_entry = "" <;>
      simp [process_images_validate, hw, hh, hb, hp]
  · intro h
    simp [process_images_start, h]

/-- Witness for C5's amended claim: a non-numeric width aborts the run
with the store untouched. -/
theorem validation_is_parse_and_nonempty_only_witness :
    process_images_start []
      { width_entry := "abc", height_entry := "5",
        border_size_height_entry := "1", pfix_entry := "x" } = ([], none) :=
  (validation_is_parse_and_nonempty_only []
    { width_entry := "abc", height_entry := "5",
      border_size_height_entry := "1", pfix_entry := "x" }).2 rfl

/-- C8: saving the four field values under a (non-falsy) name and
loading that name back reproduces all four values exactly, whatever the
fields held before the load. -/
theorem config_save_load_roundtrip
    (store : ConfigStore) (f g : Fields) (name : String) (hname : name ≠ "") :
    load_selected_configuration
      (save_configuration store f (some name) true) (some name) g = f := by
  simp [save_configuration, hname, writeStore, load_selected_configuration,
    selectedFileName, lookupStore, configDataOfFields]

/-- Witness for C8 with the name "myconf". -/
theorem config_save_load_roundtrip_witness :
    load_selected_configuration
      (save_configuration []
        { width_entry := "800", height_entry := "1600",
          border_size_height_entry := "40", pfix_entry := "_b" }
        (some "myconf") true)
      (some "myconf")
      { width_entry := "", height_entry := "",
        border_size_height_entry := "", pfix_entry := "" } =
    { width_entry := "800", height_entry := "1600",
      border_size_height_entry := "40", pfix_entry := "_b" } :=
  config_save_load_roundtrip []
    { width_entry := "800", height_entry := "1600",
      border_size_height_entry := "40", pfix_entry := "_b" }
    { width_entry := "", height_entry := "",
      border_size_height_entry := "", pfix_entry := "" }
    "myconf" (by decide)

/-- C9: loading a configuration whose record file does not exist leaves
the four field values unchanged (the `FileNotFoundError` is caught and
ignored, so no error surfaces). -/
theorem load_missing_config_keeps_fields
    (store : ConfigStore) (sel : Option String) (f : Fields)
    (h : lookupStore store (selectedFileName sel) = none) :
    load_selected_configuration store sel f = f := by
  simp [load_selected_configuration, h]

/-- Witness for C9: loading the absent name "missing" from an empty
directory. -/
theorem load_missing_config_keeps_fields_witness :
    load_selected_configuration [] (some "missing")
      { width_entry := "800", height_entry := "1600",
        border_size_height_entry := "40", pfix_entry := "_b" } =
    { width_entry := "800", height_entry := "1600",
      border_size_height_entry := "40", pfix_entry := "_b" } :=
  load_missing_config_keeps_fields [] (some "missing")
    { width_entry := "800", height_entry := "1600",
      border_size_height_entry := "40", pfix_entry := "_b" }
    rfl
